import Mathlib

/-!
Shallow embedding of the Roroshetta Sense BLE integration
(custom_components/roroshetta).  It covers the payload decoder
(`_parse_data`), the poll eligibility gate (`_needs_poll`) and the
acquisition retry loop (`_async_update`) of coordinator.py, plus the
pairing-state acquisition-coordinator variant that the design document
describes around the `DATA_PAIRED_ONCE` / `PAIRING_WINDOW_SECONDS`
constants of const.py.

Conventions: Python byte strings become `List Nat` (each entry one
byte), Python `float` results of the scaling divisions become exact
rationals (`ℚ`), Python `int` fields become `Nat`.  The asynchronous
transport is an environment function giving each connection attempt
its outcome; the observable side effects of a cycle (connects,
subscriptions, sleeps, persistence requests) are collected in an
event trace.
-/

namespace Roroshetta

/-- `UPDATE_INTERVAL` from const.py: poll interval in seconds. -/
def UPDATE_INTERVAL : ℚ := 60

/-- `PAIRING_WINDOW_SECONDS` from const.py: one-time pairing delay. -/
def PAIRING_WINDOW_SECONDS : Nat := 5

/-- `max_retries` in `_async_update`. -/
def maxRetries : Nat := 3

/-- The `RoroshettaData` dataclass: one field per sensor value, every
field `None` until the first successful decode.  `float` fields are
modelled as exact rationals, `int` fields as naturals. -/
structure RoroshettaData where
  temperature : Option ℚ := none
  heat_index : Option ℚ := none
  humidity : Option ℚ := none
  co2 : Option Nat := none
  tvoc : Option Nat := none
  pm25 : Option ℚ := none
  aqi : Option Nat := none
  grease_filter : Option Nat := none
  light : Option ℚ := none
  fan : Option ℚ := none
  activity : Option Nat := none
  alarm_level : Option Nat := none
  power : Option Nat := none
  uptime : Option Nat := none
  deriving Repr, DecidableEq

/-- `int.from_bytes(bs, "little")`: little-endian unsigned integer. -/
def bytesLE : List Nat → Nat
  | [] => 0
  | b :: rest => b + 256 * bytesLE rest

/-- The `get_u16_le(offset, length)` helper inside `_parse_data`:
little-endian unsigned integer read from the Python slice
`data[offset : offset + length]` (the slice truncates silently at the
end of the byte string, exactly as `drop`/`take` do). -/
def get_u16_le (data : List Nat) (offset : Nat) (width : Nat) : Nat :=
  bytesLE ((data.drop offset).take width)

/-- `_parse_data`: decode one notification payload into the held
reading.  Payloads shorter than 60 bytes leave the reading untouched;
otherwise every field is assigned from the fixed-offset little-endian
integers with the fixed scaling. -/
def parse_data (st : RoroshettaData) (data : List Nat) : RoroshettaData :=
  if data.length < 60 then st
  else
    { temperature := some (((get_u16_le data 0 2 : ℚ) + 10000) / 100 - 150)
      heat_index := some (((get_u16_le data 2 2 : ℚ) + 10000) / 100 - 150)
      humidity := some ((get_u16_le data 4 2 : ℚ) / 100)
      aqi := some (get_u16_le data 10 2)
      pm25 := some ((get_u16_le data 13 2 : ℚ) / 1000)
      co2 := some (get_u16_le data 15 2)
      tvoc := some (get_u16_le data 17 2)
      uptime := some (get_u16_le data 36 3)
      alarm_level := some (get_u16_le data 44 1)
      activity := some (get_u16_le data 45 1)
      power := some (get_u16_le data 46 2)
      light := some ((get_u16_le data 53 1 : ℚ) / 30)
      fan := some ((get_u16_le data 56 1 : ℚ) / 30)
      grease_filter := some (get_u16_le data 59 1) }

/-- `_needs_poll`: poll iff Home Assistant is in `CoreState.running`,
the poll interval has elapsed (or there was no previous poll), and the
bluetooth cache reports a connectable device at the address. -/
def needs_poll (hassRunning : Bool) (secondsSinceLastPoll : Option ℚ)
    (deviceConnectable : Bool) : Bool :=
  hassRunning
    && (match secondsSinceLastPoll with
        | none => true
        | some s => decide (UPDATE_INTERVAL ≤ s))
    && deviceConnectable

/-- C1 -- For every payload of length ≥ 60 bytes, `_parse_data` sets all
fourteen reading fields in one pass from the little-endian unsigned
integers at the fixed offsets and widths with the stated scaling using
exact (non-truncating) division; raw `10000` at offsets 0–1 yields
temperature `50`, and no field is left `none` afterwards. -/
theorem parse_data_decodes_all_fields (st : RoroshettaData) (data : List Nat)
    (h : 60 ≤ data.length) :
    parse_data st data =
      { temperature := some (((get_u16_le data 0 2 : ℚ) + 10000) / 100 - 150)
        heat_index := some (((get_u16_le data 2 2 : ℚ) + 10000) / 100 - 150)
        humidity := some ((get_u16_le data 4 2 : ℚ) / 100)
        aqi := some (get_u16_le data 10 2)
        pm25 := some ((get_u16_le data 13 2 : ℚ) / 1000)
        co2 := some (get_u16_le data 15 2)
        tvoc := some (get_u16_le data 17 2)
        uptime := some (get_u16_le data 36 3)
        alarm_level := some (get_u16_le data 44 1)
        activity := some (get_u16_le data 45 1)
        power := some (get_u16_le data 46 2)
        light := some ((get_u16_le data 53 1 : ℚ) / 30)
        fan := some ((get_u16_le data 56 1 : ℚ) / 30)
        grease_filter := some (get_u16_le data 59 1) } ∧
    (get_u16_le data 0 2 = 10000 →
      (parse_data st data).temperature = some 50) ∧
    (parse_data st data).temperature ≠ none ∧
    (parse_data st data).heat_index ≠ none ∧
    (parse_data st data).humidity ≠ none ∧
    (parse_data st data).co2 ≠ none ∧
    (parse_data st data).tvoc ≠ none ∧
    (parse_data st data).pm25 ≠ none ∧
    (parse_data st data).aqi ≠ none ∧
    (parse_data st data).grease_filter ≠ none ∧
    (parse_data st data).light ≠ none ∧
    (parse_data st data).fan ≠ none ∧
    (parse_data st data).activity ≠ none ∧
    (parse_data st data).alarm_level ≠ none ∧
    (parse_data st data).power ≠ none ∧
    (parse_data st data).uptime ≠ none := by
  have hlt : ¬ data.length < 60 := Nat.not_lt.mpr h
  refine ⟨by rw [parse_data, if_neg hlt], ?_, ?_⟩
  · intro h10
    rw [parse_data, if_neg hlt]
    simp only [h10]
    norm_num
  · rw [parse_data, if_neg hlt]
    refine ⟨?_, ?_, ?_, ?_, ?_, ?_, ?_, ?_, ?_, ?_, ?_, ?_, ?_, ?_⟩ <;> simp

/-- Witness for C1 at a concrete 60-byte payload whose first two bytes
are `0x10 0x27` (little-endian 10000). -/
theorem parse_data_decodes_all_fields_witness :
    60 ≤ (16 :: 39 :: List.replicate 58 0).length ∧
    (parse_data {} (16 :: 39 :: List.replicate 58 0)).temperature = some 50 := by
  refine ⟨by decide, ?_⟩
  have h := parse_data_decodes_all_fields {} (16 :: 39 :: List.replicate 58 0)
    (by decide)
  exact h.2.1 (by decide)

/-- C2 -- For every payload of length < 60 bytes, `_parse_data` is a
no-op: the reading held before and after the call is identical. -/
theorem parse_data_short_noop (st : RoroshettaData) (data : List Nat)
    (h : data.length < 60) :
    parse_data st data = st := by
  rw [parse_data, if_pos h]

/-- Witness for C2 at a concrete 3-byte payload. -/
theorem parse_data_short_noop_witness :
    ([1, 2, 3] : List Nat).length < 60 ∧
    parse_data {} [1, 2, 3] = {} :=
  ⟨by decide, parse_data_short_noop {} [1, 2, 3] (by decide)⟩

/-- C5 -- `_needs_poll` returns `true` iff the process is running AND
(there was no prior poll OR the elapsed seconds reach the 60-second
poll interval) AND the device address is currently connectable; being
a pure function, repeated evaluation on unchanged inputs always
returns the same decision. -/
theorem needs_poll_spec (hassRunning : Bool) (elapsed : Option ℚ)
    (deviceConnectable : Bool) :
    (needs_poll hassRunning elapsed deviceConnectable = true ↔
      hassRunning = true ∧
      (elapsed = none ∨ ∃ s, elapsed = some s ∧ UPDATE_INTERVAL ≤ s) ∧
      deviceConnectable = true) ∧
    needs_poll hassRunning elapsed deviceConnectable =
      needs_poll hassRunning elapsed deviceConnectable := by
  refine ⟨?_, rfl⟩
  cases elapsed with
  | none => simp [needs_poll]
  | some s =>
    simp only [needs_poll, Bool.and_eq_true, decide_eq_true_eq]
    constructor
    · rintro ⟨⟨hr, hs⟩, hc⟩
      exact ⟨hr, Or.inr ⟨s, rfl, hs⟩, hc⟩
    · rintro ⟨hr, hor, hc⟩
      rcases hor with hnone | ⟨t, ht, hts⟩
      · exact absurd hnone (by simp)
      · cases Option.some.inj ht
        exact ⟨⟨hr, hts⟩, hc⟩

/-- Observable side effects of a poll cycle, in order of occurrence:
the transport operations of `_async_update` (`BleakClient` connect and
disconnect, `start_notify`, `stop_notify`, an inbound notification
payload), the backoff `asyncio.sleep`, and — for the pairing-state
coordinator of the design document — the pairing-window sleep and the
persistence request for the `paired_once` flag. -/
inductive Event where
  | connect
  | startNotify
  | notifyData (payload : List Nat)
  | stopNotify
  | disconnect
  | sleep (seconds : Nat)
  | pairingSleep (seconds : Nat)
  | persist (paired : Bool)
  deriving Repr, DecidableEq

/-- Environment-supplied outcome of one connection attempt (one pass
through the `async with BleakClient(...)` block): the attempt either
completes — with at most one notification payload delivered before the
8-second wait times out — or aborts with a `BleakError`, or aborts
with any other exception. -/
inductive AttemptOutcome where
  | ok (payload : Option (List Nat))
  | bleakError (msg : String)
  | unexpectedError (msg : String)

/-- The `UpdateFailed` exceptions `_async_update` can raise, carrying
the data interpolated into their messages: the device address, the
0-based attempt index, and the underlying error. -/
inductive UpdateError where
  | deviceUnavailable (address : String)
  | transportFailed (address : String) (attempt : Nat) (lastError : String)
  | unexpectedFailure (address : String) (attempt : Nat) (err : String)
  deriving Repr, DecidableEq

/-- Transport operations performed by one attempt.  A completing
attempt connects, subscribes, possibly receives a notification,
unsubscribes and disconnects; a failing attempt starts its connection
and the `async with` scope still releases it on the exception path. -/
def attemptEvents : AttemptOutcome → List Event
  | AttemptOutcome.ok none =>
      [Event.connect, Event.startNotify, Event.stopNotify, Event.disconnect]
  | AttemptOutcome.ok (some p) =>
      [Event.connect, Event.startNotify, Event.notifyData p,
       Event.stopNotify, Event.disconnect]
  | AttemptOutcome.bleakError _ => [Event.connect, Event.disconnect]
  | AttemptOutcome.unexpectedError _ => [Event.connect, Event.disconnect]

/-- The retry loop of `_async_update` (`for attempt in range(max_retries)`),
generic in the coordinator state `σ` so the value-level and the
reference-level embeddings share it.  `applyNote` is the
`handle_notify` callback body (decode into the held reading), `env`
gives each attempt's outcome, and the loop is called with
`remaining = maxRetries`, `idx = 0`; an attempt is the last one
exactly when `remaining = 1`, matching `attempt == max_retries - 1`.
A completing attempt breaks out of the loop; a `BleakError` on a
non-final attempt sleeps `2 ^ idx` seconds and retries; a `BleakError`
on the final attempt, or any unexpected error, raises `UpdateFailed`. -/
def runLoop {σ : Type} (applyNote : σ → List Nat → σ) (address : String)
    (env : Nat → AttemptOutcome) :
    Nat → Nat → σ → Except UpdateError σ × List Event
  | 0, _, st => (Except.ok st, [])
  | remaining + 1, idx, st =>
    match env idx with
    | AttemptOutcome.ok none =>
        (Except.ok st, attemptEvents (AttemptOutcome.ok none))
    | AttemptOutcome.ok (some p) =>
        (Except.ok (applyNote st p), attemptEvents (AttemptOutcome.ok (some p)))
    | AttemptOutcome.bleakError msg =>
        if remaining = 0 then
          (Except.error (UpdateError.transportFailed address idx msg),
           attemptEvents (AttemptOutcome.bleakError msg))
        else
          let rest := runLoop applyNote address env remaining (idx + 1) st
          (rest.1,
           attemptEvents (AttemptOutcome.bleakError msg)
             ++ [Event.sleep (2 ^ idx)] ++ rest.2)
    | AttemptOutcome.unexpectedError msg =>
        (Except.error (UpdateError.unexpectedFailure address idx msg),
         attemptEvents (AttemptOutcome.unexpectedError msg))

/-- `_async_update`: the availability pre-check via
`async_ble_device_from_address`, then the 3-attempt retry loop over
the held reading, returning `self.data`. -/
def asyncUpdate (deviceAvailable : Bool) (address : String)
    (env : Nat → AttemptOutcome) (st : RoroshettaData) :
    Except UpdateError RoroshettaData × List Event :=
  if deviceAvailable then
    runLoop parse_data address env maxRetries 0 st
  else
    (Except.error (UpdateError.deviceUnavailable address), [])

/-- Number of connection attempts recorded in an event trace. -/
def numAttempts (evs : List Event) : Nat :=
  evs.count Event.connect

/-- Total backoff sleep (in seconds) recorded in an event trace;
pairing-window sleeps and per-attempt timeouts are not backoff. -/
def totalBackoff : List Event → Nat
  | [] => 0
  | Event.sleep n :: rest => n + totalBackoff rest
  | _ :: rest => totalBackoff rest

/-- C6 -- If the reachability re-check at the start of `_async_update`
reports the device as not connectable, the cycle fails immediately
with the device-unavailable error for that address and performs no
transport operation at all: the event trace is empty, so there is no
connect, no subscribe, no retry and no backoff sleep. -/
theorem unavailable_device_no_transport (address : String)
    (env : Nat → AttemptOutcome) (st : RoroshettaData) :
    asyncUpdate false address env st =
      (Except.error (UpdateError.deviceUnavailable address), []) := by
  rfl

/-- C7 -- A timeout of the 8-second notification wait is not an error:
when the first attempt completes with no notification received, the
attempt still unsubscribes and disconnects, the cycle returns the
reading that existed before the wait, unchanged, and no error is
raised. -/
theorem notify_timeout_not_fatal (address : String)
    (env : Nat → AttemptOutcome) (st : RoroshettaData)
    (h : env 0 = AttemptOutcome.ok none) :
    asyncUpdate true address env st =
      (Except.ok st,
       [Event.connect, Event.startNotify, Event.stopNotify,
        Event.disconnect]) := by
  simp [asyncUpdate, maxRetries, runLoop, h, attemptEvents]

/-- Witness for C7: a concrete environment whose every attempt times
out on the notification wait. -/
theorem notify_timeout_not_fatal_witness :
    (fun _ : Nat => AttemptOutcome.ok none) 0 = AttemptOutcome.ok none ∧
    asyncUpdate true "AA:BB" (fun _ => AttemptOutcome.ok none) {} =
      (Except.ok {},
       [Event.connect, Event.startNotify, Event.stopNotify,
        Event.disconnect]) :=
  ⟨rfl, notify_timeout_not_fatal "AA:BB" (fun _ => AttemptOutcome.ok none) {} rfl⟩

/-- C8 -- The retry loop exits right after the first attempt that
completes without a transport exception, whether or not fresh data
arrived: with a `BleakError` on attempt 1 and an exception-free
attempt 2, the cycle succeeds after exactly 2 connection attempts —
no third attempt occurs. -/
theorem retry_stops_after_success (address : String)
    (env : Nat → AttemptOutcome) (st : RoroshettaData)
    (m : String) (note : Option (List Nat))
    (h0 : env 0 = AttemptOutcome.bleakError m)
    (h1 : env 1 = AttemptOutcome.ok note) :
    (asyncUpdate true address env st).1.isOk = true ∧
    numAttempts (asyncUpdate true address env st).2 = 2 := by
  cases note with
  | none =>
    simp [asyncUpdate, maxRetries, runLoop, h0, h1, attemptEvents,
      numAttempts, Except.isOk, Except.toBool, List.count_cons]
  | some p =>
    simp [asyncUpdate, maxRetries, runLoop, h0, h1, attemptEvents,
      numAttempts, Except.isOk, Except.toBool, List.count_cons]

/-- Witness for C8: attempt 1 fails with a transport error, attempt 2
completes with no data. -/
theorem retry_stops_after_success_witness :
    (asyncUpdate true "AA:BB"
        (fun i => if i = 0 then AttemptOutcome.bleakError "boom"
                  else AttemptOutcome.ok none) {}).1.isOk = true ∧
    numAttempts (asyncUpdate true "AA:BB"
        (fun i => if i = 0 then AttemptOutcome.bleakError "boom"
                  else AttemptOutcome.ok none) {}).2 = 2 :=
  retry_stops_after_success "AA:BB"
    (fun i => if i = 0 then AttemptOutcome.bleakError "boom"
              else AttemptOutcome.ok none) {} "boom" none rfl rfl

/-- C3 counterexample -- with three consecutive `BleakError` outcomes
the cycle does fail after exactly 3 attempts, but the total backoff
slept is 1 + 2 = 3 seconds, not approximately 1 + 2 + 4 = 7 seconds:
no backoff sleep follows the final failed attempt. -/
theorem all_attempts_fail_backoff_counterexample :
    totalBackoff (asyncUpdate true "AA:BB"
        (fun _ => AttemptOutcome.bleakError "boom") {}).2 = 3 ∧
    ¬ totalBackoff (asyncUpdate true "AA:BB"
        (fun _ => AttemptOutcome.bleakError "boom") {}).2 = 7 := by
  constructor <;> decide

/-- C3 (amended) -- if all three attempts fail with a `BleakError`,
the cycle makes exactly 3 connection attempts, sleeps backoffs of
`2 ^ 0 = 1` and `2 ^ 1 = 2` seconds between consecutive attempts
(total 3 seconds; no sleep after the final attempt), and fails with
an error carrying the device address and the last underlying
transport error. -/
theorem all_attempts_fail_exhausts_retries (address : String)
    (env : Nat → AttemptOutcome) (st : RoroshettaData)
    (m0 m1 m2 : String)
    (h0 : env 0 = AttemptOutcome.bleakError m0)
    (h1 : env 1 = AttemptOutcome.bleakError m1)
    (h2 : env 2 = AttemptOutcome.bleakError m2) :
    (asyncUpdate true address env st).1 =
      Except.error (UpdateError.transportFailed address 2 m2) ∧
    numAttempts (asyncUpdate true address env st).2 = 3 ∧
    totalBackoff (asyncUpdate true address env st).2 = 1 + 2 := by
  simp [asyncUpdate, maxRetries, runLoop, h0, h1, h2, attemptEvents,
    numAttempts, totalBackoff, List.count_cons, List.count_append]

/-- Witness for the amended C3: three identical transport failures. -/
theorem all_attempts_fail_exhausts_retries_witness :
    (asyncUpdate true "AA:BB"
        (fun _ => AttemptOutcome.bleakError "boom") {}).1 =
      Except.error (UpdateError.transportFailed "AA:BB" 2 "boom") ∧
    numAttempts (asyncUpdate true "AA:BB"
        (fun _ => AttemptOutcome.bleakError "boom") {}).2 = 3 ∧
    totalBackoff (asyncUpdate true "AA:BB"
        (fun _ => AttemptOutcome.bleakError "boom") {}).2 = 1 + 2 :=
  all_attempts_fail_exhausts_retries "AA:BB"
    (fun _ => AttemptOutcome.bleakError "boom") {} "boom" "boom" "boom"
    rfl rfl rfl

/-- Reference-level view of the coordinator for the aliasing claim:
`cells` is a small heap of `RoroshettaData` objects and `dataRef` the
index of the object bound to `self.data` in `__init__`.  `_parse_data`
assigns the fields of that object in place (it never rebinds
`self.data`), and `_async_update` ends with `parsed_data = self.data;
return parsed_data`, i.e. it returns the reference itself. -/
structure CoordState where
  cells : List RoroshettaData
  dataRef : Nat
  deriving Repr, DecidableEq

/-- Dereference a `RoroshettaData` object reference. -/
def readRef (c : CoordState) (r : Nat) : RoroshettaData :=
  c.cells.getD r {}

/-- `_parse_data` at the reference level: mutate the held object in
place; the reference `self.data` itself never changes. -/
def coordParse (c : CoordState) (payload : List Nat) : CoordState :=
  { c with cells := c.cells.set c.dataRef (parse_data (readRef c c.dataRef) payload) }

/-- `_async_update` at the reference level: the same pre-check and
retry loop, with `handle_notify` mutating the heap cell, and the
return value being the reference `self.data` itself — not a copy. -/
def asyncUpdateRef (deviceAvailable : Bool) (address : String)
    (env : Nat → AttemptOutcome) (c : CoordState) :
    Except UpdateError Nat × CoordState × List Event :=
  if deviceAvailable then
    match runLoop coordParse address env maxRetries 0 c with
    | (Except.ok c', evs) => (Except.ok c'.dataRef, c', evs)
    | (Except.error e, evs) => (Except.error e, c, evs)
  else
    (Except.error (UpdateError.deviceUnavailable address), c, [])

/-- `coordParse` never rebinds the held reference. -/
theorem coordParse_dataRef (c : CoordState) (p : List Nat) :
    (coordParse c p).dataRef = c.dataRef := rfl

/-- The retry loop at the reference level never rebinds the held
reference and never resizes the heap: whatever attempt outcomes
occur, a completing run returns a state with the same `dataRef` and
the same number of heap cells. -/
theorem runLoop_coordParse_preserves (address : String)
    (env : Nat → AttemptOutcome) :
    ∀ (remaining idx : Nat) (c c' : CoordState) (evs : List Event),
      runLoop coordParse address env remaining idx c = (Except.ok c', evs) →
      c'.dataRef = c.dataRef ∧ c'.cells.length = c.cells.length := by
  intro remaining
  induction remaining with
  | zero =>
    intro idx c c' evs h
    simp only [runLoop, Prod.mk.injEq, Except.ok.injEq] at h
    rw [← h.1]
    exact ⟨rfl, rfl⟩
  | succ n ih =>
    intro idx c c' evs h
    rw [runLoop] at h
    split at h
    · simp only [Prod.mk.injEq, Except.ok.injEq] at h
      rw [← h.1]
      exact ⟨rfl, rfl⟩
    · simp only [Prod.mk.injEq, Except.ok.injEq] at h
      rw [← h.1]
      exact ⟨rfl, by simp [coordParse]⟩
    · split at h
      · simp at h
      · simp only [Prod.mk.injEq] at h
        obtain ⟨h1, _⟩ := h
        cases hrec : runLoop coordParse address env n (idx + 1) c with
        | mk res evs2 =>
          simp only [hrec] at h1
          exact ih (idx + 1) c c' evs2 (by rw [hrec, h1])
    · simp at h

/-- A completing run of the retry loop during which no notification
was delivered leaves the coordinator state untouched. -/
theorem runLoop_coordParse_no_note (address : String)
    (env : Nat → AttemptOutcome) :
    ∀ (remaining idx : Nat) (c c' : CoordState) (evs : List Event),
      runLoop coordParse address env remaining idx c = (Except.ok c', evs) →
      (∀ p, Event.notifyData p ∉ evs) → c' = c := by
  intro remaining
  induction remaining with
  | zero =>
    intro idx c c' evs h _
    simp only [runLoop, Prod.mk.injEq, Except.ok.injEq] at h
    exact h.1.symm
  | succ n ih =>
    intro idx c c' evs h hno
    rw [runLoop] at h
    split at h
    · simp only [Prod.mk.injEq, Except.ok.injEq] at h
      exact h.1.symm
    · -- a notification was delivered: contradicts the trace hypothesis
      rename_i p heq
      simp only [Prod.mk.injEq, Except.ok.injEq] at h
      refine absurd ?_ (hno p)
      rw [← h.2]
      simp [attemptEvents]
    · split at h
      · simp at h
      · simp only [Prod.mk.injEq] at h
        obtain ⟨h1, h2⟩ := h
        cases hrec : runLoop coordParse address env n (idx + 1) c with
        | mk res evs2 =>
          simp only [hrec] at h1
          refine ih (idx + 1) c c' evs2 (by rw [hrec, h1]) ?_
          intro p hp
          refine hno p ?_
          rw [← h2]
          simp only [hrec]
          simp [attemptEvents, hp]
    · simp at h

/-- C10 -- the poll operation returns the coordinator's held reading
object itself, not a copy: whenever `_async_update` succeeds (on a
heap whose held reference is valid), (a) the returned reference is
exactly `self.data`; (b) if no notification was decoded during the
cycle, the post-cycle state is identical to the pre-cycle state, so
the returned reading equals the reading held before the cycle; (c) a
caller that keeps the returned reference observes later in-place
decodes: after a further `_parse_data`, the kept reference
dereferences to the newly decoded reading. -/
theorem update_returns_held_reference (address : String)
    (env : Nat → AttemptOutcome) (c : CoordState) (r : Nat)
    (evs : List Event) (c' : CoordState) (payload : List Nat)
    (hwf : c.dataRef < c.cells.length)
    (hok : asyncUpdateRef true address env c = (Except.ok r, c', evs)) :
    r = c.dataRef ∧
    ((∀ p, Event.notifyData p ∉ evs) → c' = c) ∧
    readRef (coordParse c' payload) r =
      parse_data (readRef c' c'.dataRef) payload := by
  have hok' : runLoop coordParse address env maxRetries 0 c =
      (Except.ok c', evs) ∧ r = c'.dataRef := by
    simp only [asyncUpdateRef, if_true] at hok
    cases hrun : runLoop coordParse address env maxRetries 0 c with
    | mk res evs0 =>
      rw [hrun] at hok
      cases res with
      | ok c0 =>
        simp only [Prod.mk.injEq, Except.ok.injEq] at hok
        obtain ⟨h1, h2, h3⟩ := hok
        exact ⟨by rw [h2, h3], by rw [← h1, h2]⟩
      | error e =>
        simp only [Prod.mk.injEq] at hok
        exact absurd hok.1 (by simp)
  have hpres := runLoop_coordParse_preserves address env maxRetries 0 c c' evs
    hok'.1
  refine ⟨hok'.2.trans hpres.1, ?_, ?_⟩
  · intro hno
    exact runLoop_coordParse_no_note address env maxRetries 0 c c' evs hok'.1 hno
  · have hin : c'.dataRef < c'.cells.length := by
      rw [hpres.1, hpres.2]
      exact hwf
    rw [hok'.2]
    simp [readRef, coordParse, List.getD, List.getElem?_set_eq_of_lt _ hin]

/-- Witness for C10: a one-cell heap, an environment whose single
attempt completes without data, and a later 60-byte decode. -/
theorem update_returns_held_reference_witness :
    ((⟨[{}], 0⟩ : CoordState).dataRef < (⟨[{}], 0⟩ : CoordState).cells.length ∧
     asyncUpdateRef true "AA:BB" (fun _ => AttemptOutcome.ok none)
        ⟨[{}], 0⟩ =
      (Except.ok 0, ⟨[{}], 0⟩,
       [Event.connect, Event.startNotify, Event.stopNotify, Event.disconnect])) ∧
    (0 = (⟨[{}], 0⟩ : CoordState).dataRef ∧
     ((∀ p, Event.notifyData p ∉
        [Event.connect, Event.startNotify, Event.stopNotify, Event.disconnect]) →
        (⟨[{}], 0⟩ : CoordState) = ⟨[{}], 0⟩) ∧
     readRef (coordParse ⟨[{}], 0⟩ (List.replicate 60 0)) 0 =
       parse_data (readRef ⟨[{}], 0⟩ (⟨[{}], 0⟩ : CoordState).dataRef)
         (List.replicate 60 0)) :=
  ⟨⟨by decide, rfl⟩,
   update_returns_held_reference "AA:BB" (fun _ => AttemptOutcome.ok none)
     ⟨[{}], 0⟩ 0
     [Event.connect, Event.startNotify, Event.stopNotify, Event.disconnect]
     ⟨[{}], 0⟩ (List.replicate 60 0) (by decide) rfl⟩

/-- Modelled from the spec: `PairingState` (§3 of the design
document).  The coordinator under src/ declares the backing constants
`DATA_PAIRED_ONCE` and `PAIRING_WINDOW_SECONDS` in const.py but
contains no code using them; the pairing-state fields and their
life-cycle are therefore taken from the design document: `paired_once`
is durable across restarts, `pairing_delay_done` is transient and
defaults to false. -/
structure PairingState where
  paired_once : Bool
  pairing_delay_done : Bool
  deriving Repr, DecidableEq

/-- The external inputs of one acquisition cycle: the reachability
answer of the discovery collaborator, the device address, and the
outcome of each connection attempt. -/
structure CycleInput where
  deviceAvailable : Bool
  address : String
  env : Nat → AttemptOutcome

/-- Modelled from the spec: the Acquisition Coordinator cycle of §4.4
that uses the pairing state (absent from the coordinator under src/):
(1) if pairing never succeeded and the one-time delay is unconsumed,
sleep `PAIRING_WINDOW_SECONDS` before any connection attempt and mark
the delay consumed; (2)–(4) re-check reachability and run the retry
loop (both via `asyncUpdate`); (5) on cycle success, if `paired_once`
was false, set it true and request durable persistence; (6) return
the current reading. -/
def specCycle (ps : PairingState) (inp : CycleInput) (st : RoroshettaData) :
    PairingState × RoroshettaData × Except UpdateError RoroshettaData × List Event :=
  let delay :=
    if ps.paired_once = false ∧ ps.pairing_delay_done = false then
      ({ ps with pairing_delay_done := true },
       [Event.pairingSleep PAIRING_WINDOW_SECONDS])
    else (ps, ([] : List Event))
  match asyncUpdate inp.deviceAvailable inp.address inp.env st with
  | (Except.ok st2, evs) =>
      if delay.1.paired_once = false then
        ({ delay.1 with paired_once := true }, st2, Except.ok st2,
         delay.2 ++ evs ++ [Event.persist true])
      else
        (delay.1, st2, Except.ok st2, delay.2 ++ evs)
  | (Except.error e, evs) =>
      (delay.1, st, Except.error e, delay.2 ++ evs)

/-- One cycle viewed as a transition on the persistent state and the
held reading. -/
def cycleStep (s : PairingState × RoroshettaData) (inp : CycleInput) :
    PairingState × RoroshettaData :=
  ((specCycle s.1 inp s.2).1, (specCycle s.1 inp s.2).2.1)

/-- A sequence of acquisition cycles. -/
def runCycles : PairingState × RoroshettaData → List CycleInput →
    PairingState × RoroshettaData
  | s, [] => s
  | s, inp :: rest => runCycles (cycleStep s inp) rest

/-- Number of false→true transitions of `paired_once` along a cycle
sequence. -/
def pairedFlips : PairingState × RoroshettaData → List CycleInput → Nat
  | _, [] => 0
  | s, inp :: rest =>
    (if s.1.paired_once = false ∧ (cycleStep s inp).1.paired_once = true
     then 1 else 0) + pairedFlips (cycleStep s inp) rest

/-- The retry loop emits only transport events and backoff sleeps:
never a pairing-window sleep, never a persistence request. -/
theorem runLoop_events_transport {σ : Type} (applyNote : σ → List Nat → σ)
    (address : String) (env : Nat → AttemptOutcome) (n : Nat) (b : Bool) :
    ∀ (remaining idx : Nat) (st : σ),
      Event.pairingSleep n ∉ (runLoop applyNote address env remaining idx st).2 ∧
      Event.persist b ∉ (runLoop applyNote address env remaining idx st).2 := by
  intro remaining
  induction remaining with
  | zero => intro idx st; simp [runLoop]
  | succ k ih =>
    intro idx st
    rw [runLoop]
    cases env idx with
    | ok note => cases note <;> simp [attemptEvents]
    | bleakError msg =>
      by_cases hk : k = 0
      · simp [hk, attemptEvents]
      · have := ih (idx + 1) st
        simp [hk, attemptEvents]
        exact ⟨this.1, this.2⟩
    | unexpectedError msg => simp [attemptEvents]

/-- `_async_update` emits only transport events and backoff sleeps. -/
theorem asyncUpdate_events_transport (deviceAvailable : Bool)
    (address : String) (env : Nat → AttemptOutcome) (st : RoroshettaData)
    (n : Nat) (b : Bool) :
    Event.pairingSleep n ∉ (asyncUpdate deviceAvailable address env st).2 ∧
    Event.persist b ∉ (asyncUpdate deviceAvailable address env st).2 := by
  cases deviceAvailable with
  | true =>
    simpa [asyncUpdate] using
      runLoop_events_transport parse_data address env n b maxRetries 0 st
  | false => simp [asyncUpdate]

/-- Once `paired_once` is true, a cycle keeps it true and requests no
further persistence. -/
theorem specCycle_paired_mono (ps : PairingState) (inp : CycleInput)
    (st : RoroshettaData) (h : ps.paired_once = true) :
    (specCycle ps inp st).1.paired_once = true ∧
    Event.persist true ∉ (specCycle ps inp st).2.2.2 := by
  have hnp := asyncUpdate_events_transport inp.deviceAvailable inp.address
    inp.env st 0 true
  unfold specCycle
  cases hres : asyncUpdate inp.deviceAvailable inp.address inp.env st with
  | mk res evs =>
    rw [hres] at hnp
    cases res with
    | ok st2 => simp [h, hnp.2]
    | error e => simp [h, hnp.2]

/-- A successful cycle starting unpaired sets `paired_once` and hands
the flag to the persistence collaborator. -/
theorem specCycle_success_sets (ps : PairingState) (inp : CycleInput)
    (st : RoroshettaData) (h : ps.paired_once = false)
    (hok : (specCycle ps inp st).2.2.1.isOk = true) :
    (specCycle ps inp st).1.paired_once = true ∧
    Event.persist true ∈ (specCycle ps inp st).2.2.2 := by
  unfold specCycle at hok ⊢
  cases hres : asyncUpdate inp.deviceAvailable inp.address inp.env st with
  | mk res evs =>
    rw [hres] at hok
    cases res with
    | ok st2 => by_cases hd : ps.pairing_delay_done = false <;> simp [h, hd]
    | error e => simp [Except.isOk, Except.toBool] at hok

/-- `cycleStep` keeps `paired_once` true. -/
theorem cycleStep_paired_mono (s : PairingState × RoroshettaData)
    (inp : CycleInput) (h : s.1.paired_once = true) :
    (cycleStep s inp).1.paired_once = true :=
  (specCycle_paired_mono s.1 inp s.2 h).1

/-- From a paired state, later cycles never flip `paired_once` again. -/
theorem pairedFlips_of_true :
    ∀ (L : List CycleInput) (s : PairingState × RoroshettaData),
      s.1.paired_once = true →
      pairedFlips s L = 0 ∧ (runCycles s L).1.paired_once = true := by
  intro L
  induction L with
  | nil => intro s h; exact ⟨rfl, h⟩
  | cons inp rest ih =>
    intro s h
    have h2 := cycleStep_paired_mono s inp h
    have h3 := ih (cycleStep s inp) h2
    refine ⟨?_, h3.2⟩
    simp [pairedFlips, h, h3.1]

/-- `paired_once` flips at most once across any cycle sequence. -/
theorem pairedFlips_le_one :
    ∀ (L : List CycleInput) (s : PairingState × RoroshettaData),
      pairedFlips s L ≤ 1 := by
  intro L
  induction L with
  | nil => intro s; exact Nat.zero_le 1
  | cons inp rest ih =>
    intro s
    cases hb : s.1.paired_once with
    | true =>
      have h3 := pairedFlips_of_true (inp :: rest) s hb
      omega
    | false =>
      cases hs : (cycleStep s inp).1.paired_once with
      | true =>
        have htail := pairedFlips_of_true rest (cycleStep s inp) hs
        simp [pairedFlips, hb, hs, htail.1]
      | false =>
        simpa [pairedFlips, hb, hs] using ih (cycleStep s inp)

/-- If a sequence starting unpaired ends paired, `paired_once` flipped
exactly once. -/
theorem pairedFlips_eq_one :
    ∀ (L : List CycleInput) (s : PairingState × RoroshettaData),
      s.1.paired_once = false →
      (runCycles s L).1.paired_once = true → pairedFlips s L = 1 := by
  intro L
  induction L with
  | nil =>
    intro s h hfin
    simp [runCycles, h] at hfin
  | cons inp rest ih =>
    intro s h hfin
    cases hs : (cycleStep s inp).1.paired_once with
    | true =>
      have htail := pairedFlips_of_true rest (cycleStep s inp) hs
      simp [pairedFlips, h, hs, htail.1]
    | false =>
      have h4 := ih (cycleStep s inp) hs hfin
      simp [pairedFlips, h, hs, h4]

/-- C4 -- after the first cycle that completes without a fatal error,
`paired_once` is true and is handed to the persistence collaborator;
once true it stays true and no further persistence is requested; and
across any sequence of cycles the flag flips false→true at most once —
exactly once when the sequence ends paired. -/
theorem paired_once_single_transition (ps ps2 : PairingState)
    (inp inp2 : CycleInput) (st st2 : RoroshettaData)
    (inputs : List CycleInput)
    (h : ps.paired_once = false) (h2 : ps2.paired_once = true) :
    ((specCycle ps inp st).2.2.1.isOk = true →
        (specCycle ps inp st).1.paired_once = true ∧
        Event.persist true ∈ (specCycle ps inp st).2.2.2) ∧
    ((specCycle ps2 inp2 st2).1.paired_once = true ∧
        Event.persist true ∉ (specCycle ps2 inp2 st2).2.2.2) ∧
    pairedFlips (ps, st) inputs ≤ 1 ∧
    ((runCycles (ps, st) inputs).1.paired_once = true →
        pairedFlips (ps, st) inputs = 1) :=
  ⟨fun hok => specCycle_success_sets ps inp st h hok,
   specCycle_paired_mono ps2 inp2 st2 h2,
   pairedFlips_le_one inputs (ps, st),
   fun hfin => pairedFlips_eq_one inputs (ps, st) h hfin⟩

/-- Witness for C4: an unpaired state, a paired state, one succeeding
cycle input and a one-cycle sequence. -/
theorem paired_once_single_transition_witness :
    (PairingState.mk false false).paired_once = false ∧
    (PairingState.mk true true).paired_once = true ∧
    (((specCycle ⟨false, false⟩ ⟨true, "AA:BB", fun _ => AttemptOutcome.ok none⟩
          {}).2.2.1.isOk = true →
        (specCycle ⟨false, false⟩ ⟨true, "AA:BB", fun _ => AttemptOutcome.ok none⟩
          {}).1.paired_once = true ∧
        Event.persist true ∈ (specCycle ⟨false, false⟩
          ⟨true, "AA:BB", fun _ => AttemptOutcome.ok none⟩ {}).2.2.2) ∧
     ((specCycle ⟨true, true⟩ ⟨true, "AA:BB", fun _ => AttemptOutcome.ok none⟩
          {}).1.paired_once = true ∧
        Event.persist true ∉ (specCycle ⟨true, true⟩
          ⟨true, "AA:BB", fun _ => AttemptOutcome.ok none⟩ {}).2.2.2) ∧
     pairedFlips (⟨false, false⟩, {})
        [⟨true, "AA:BB", fun _ => AttemptOutcome.ok none⟩] ≤ 1 ∧
     ((runCycles (⟨false, false⟩, {})
          [⟨true, "AA:BB", fun _ => AttemptOutcome.ok none⟩]).1.paired_once = true →
        pairedFlips (⟨false, false⟩, {})
          [⟨true, "AA:BB", fun _ => AttemptOutcome.ok none⟩] = 1)) :=
  ⟨rfl, rfl,
   paired_once_single_transition ⟨false, false⟩ ⟨true, true⟩
     ⟨true, "AA:BB", fun _ => AttemptOutcome.ok none⟩
     ⟨true, "AA:BB", fun _ => AttemptOutcome.ok none⟩ {} {}
     [⟨true, "AA:BB", fun _ => AttemptOutcome.ok none⟩] rfl rfl⟩

/-- Once the pairing delay is consumed, a cycle keeps it consumed and
never sleeps the pairing window again. -/
theorem specCycle_delay_mono (ps : PairingState) (inp : CycleInput)
    (st : RoroshettaData) (h : ps.pairing_delay_done = true) :
    (specCycle ps inp st).1.pairing_delay_done = true ∧
    Event.pairingSleep PAIRING_WINDOW_SECONDS ∉ (specCycle ps inp st).2.2.2 := by
  have hnp := asyncUpdate_events_transport inp.deviceAvailable inp.address
    inp.env st PAIRING_WINDOW_SECONDS true
  unfold specCycle
  cases hres : asyncUpdate inp.deviceAvailable inp.address inp.env st with
  | mk res evs =>
    rw [hres] at hnp
    cases res with
    | ok st2 =>
      by_cases hp : ps.paired_once = false <;> simp [h, hp, hnp.1]
    | error e => simp [h, hnp.1]

/-- While `paired_once` is true a cycle leaves `pairing_delay_done`
untouched and never sleeps the pairing window: the delay can only be
consumed while the device is unpaired. -/
theorem specCycle_delay_fixed_when_paired (ps : PairingState)
    (inp : CycleInput) (st : RoroshettaData) (h : ps.paired_once = true) :
    (specCycle ps inp st).1.pairing_delay_done = ps.pairing_delay_done ∧
    Event.pairingSleep PAIRING_WINDOW_SECONDS ∉ (specCycle ps inp st).2.2.2 := by
  have hnp := asyncUpdate_events_transport inp.deviceAvailable inp.address
    inp.env st PAIRING_WINDOW_SECONDS true
  unfold specCycle
  cases hres : asyncUpdate inp.deviceAvailable inp.address inp.env st with
  | mk res evs =>
    rw [hres] at hnp
    cases res with
    | ok st2 => simp [h, hnp.1]
    | error e => simp [h, hnp.1]

/-- C9 -- on a cycle where pairing never succeeded and the one-time
delay is unconsumed, the coordinator sleeps the 5-second pairing
window as the very first action of the cycle — before any connection
attempt — and marks the delay consumed; once consumed the delay stays
consumed and the window is never slept again; and while `paired_once`
is true the delay flag never changes, so `pairing_delay_done` flips
false→true at most once and only while `paired_once` is false. -/
theorem pairing_delay_once_before_connect (ps ps2 ps3 : PairingState)
    (inp inp2 inp3 : CycleInput) (st st2 st3 : RoroshettaData)
    (h1 : ps.paired_once = false) (h2 : ps.pairing_delay_done = false)
    (hd : ps2.pairing_delay_done = true) (hp : ps3.paired_once = true) :
    (specCycle ps inp st).2.2.2.head? =
      some (Event.pairingSleep PAIRING_WINDOW_SECONDS) ∧
    (specCycle ps inp st).1.pairing_delay_done = true ∧
    ((specCycle ps2 inp2 st2).1.pairing_delay_done = true ∧
      Event.pairingSleep PAIRING_WINDOW_SECONDS ∉ (specCycle ps2 inp2 st2).2.2.2) ∧
    ((specCycle ps3 inp3 st3).1.pairing_delay_done = ps3.pairing_delay_done ∧
      Event.pairingSleep PAIRING_WINDOW_SECONDS ∉ (specCycle ps3 inp3 st3).2.2.2) := by
  refine ⟨?_, ?_, specCycle_delay_mono ps2 inp2 st2 hd,
    specCycle_delay_fixed_when_paired ps3 inp3 st3 hp⟩
  · unfold specCycle
    cases hres : asyncUpdate inp.deviceAvailable inp.address inp.env st with
    | mk res evs =>
      cases res with
      | ok st2 => simp [h1, h2]
      | error e => simp [h1, h2]
  · unfold specCycle
    cases hres : asyncUpdate inp.deviceAvailable inp.address inp.env st with
    | mk res evs =>
      cases res with
      | ok st2 => simp [h1, h2]
      | error e => simp [h1, h2]

/-- Witness for C9: a fresh unpaired state, a delay-consumed state and
a paired state, each run through a concrete cycle. -/
theorem pairing_delay_once_before_connect_witness :
    ((PairingState.mk false false).paired_once = false ∧
     (PairingState.mk false false).pairing_delay_done = false ∧
     (PairingState.mk false true).pairing_delay_done = true ∧
     (PairingState.mk true false).paired_once = true) ∧
    ((specCycle ⟨false, false⟩ ⟨true, "AA:BB", fun _ => AttemptOutcome.ok none⟩
        {}).2.2.2.head? =
      some (Event.pairingSleep PAIRING_WINDOW_SECONDS) ∧
     (specCycle ⟨false, false⟩ ⟨true, "AA:BB", fun _ => AttemptOutcome.ok none⟩
        {}).1.pairing_delay_done = true ∧
     ((specCycle ⟨false, true⟩ ⟨true, "AA:BB", fun _ => AttemptOutcome.ok none⟩
          {}).1.pairing_delay_done = true ∧
      Event.pairingSleep PAIRING_WINDOW_SECONDS ∉
        (specCycle ⟨false, true⟩ ⟨true, "AA:BB", fun _ => AttemptOutcome.ok none⟩
          {}).2.2.2) ∧
     ((specCycle ⟨true, false⟩ ⟨true, "AA:BB", fun _ => AttemptOutcome.ok none⟩
          {}).1.pairing_delay_done =
        (PairingState.mk true false).pairing_delay_done ∧
      Event.pairingSleep PAIRING_WINDOW_SECONDS ∉
        (specCycle ⟨true, false⟩ ⟨true, "AA:BB", fun _ => AttemptOutcome.ok none⟩
          {}).2.2.2)) :=
  ⟨⟨rfl, rfl, rfl, rfl⟩,
   pairing_delay_once_before_connect ⟨false, false⟩ ⟨false, true⟩ ⟨true, false⟩
     ⟨true, "AA:BB", fun _ => AttemptOutcome.ok none⟩
     ⟨true, "AA:BB", fun _ => AttemptOutcome.ok none⟩
     ⟨true, "AA:BB", fun _ => AttemptOutcome.ok none⟩
     {} {} {} rfl rfl rfl rfl⟩

end Roroshetta
